import Mathlib

/-!
Shallow embedding of the connection-request registry and the gated
conversation store of src/app.py.

The sqlite tables users, message_requests and messages are modelled as
lists inside a single ChatState record; the AUTOINCREMENT id column of
message_requests is modelled by the next_request_id counter.  Each Python
function over those tables is translated into a pure Lean function:
fallible operations return Except, state-mutating operations return the
updated ChatState, and the wall-clock timestamp taken by send_message via
datetime.now() is passed in as an explicit Nat argument.
-/

namespace Chat

/-- Status column of the message_requests table. -/
inductive ReqStatus where
  | pending
  | accepted
  | declined
deriving DecidableEq, Repr

/-- Row of the users table (id, username); the password hash plays no role
in the messaging core and is omitted. -/
structure User where
  id : Nat
  username : String
deriving DecidableEq, Repr

/-- Row of the message_requests table. -/
structure MessageRequest where
  id : Nat
  sender_id : Nat
  receiver_id : Nat
  status : ReqStatus
deriving DecidableEq, Repr

/-- Row of the messages table. -/
structure Message where
  sender_id : Nat
  receiver_id : Nat
  message_text : String
  timestamp : Nat
deriving DecidableEq, Repr

/-- The whole persistent store. -/
structure ChatState where
  users : List User
  requests : List MessageRequest
  messages : List Message
  next_request_id : Nat
deriving DecidableEq, Repr

/-- Embeds get_user_id: SELECT id FROM users WHERE username = ?. -/
def get_user_id (s : ChatState) (username : String) : Option Nat :=
  (s.users.find? (fun u => u.username == username)).map User.id

/-- Error outcomes of send_request, one per early-return message string. -/
inductive SendRequestError where
  | userNotFound
  | selfTarget
  | alreadyConnected
  | requestExists
deriving DecidableEq, Repr

/-- The WHERE clause shared by the duplicate check of send_request, the
gate of get_messages and the message filters: a request row matching the
pair in either direction. -/
def pair_matches (sender_id receiver_id : Nat) (r : MessageRequest) : Bool :=
  (r.sender_id == sender_id && r.receiver_id == receiver_id) ||
  (r.sender_id == receiver_id && r.receiver_id == sender_id)

/-- Embeds send_request.  The Python code resolves the receiver username
(treating both a missing row and a falsy id 0 as not found), rejects a
self-target, fetches one existing row for the unordered pair in either
direction, and only when none exists inserts a fresh pending row. -/
def send_request (s : ChatState) (sender_id : Nat) (receiver_username : String) :
    Except SendRequestError ChatState :=
  match get_user_id s receiver_username with
  | none => .error .userNotFound
  | some receiver_id =>
    if receiver_id = 0 then .error .userNotFound
    else if sender_id = receiver_id then .error .selfTarget
    else
      match s.requests.find? (pair_matches sender_id receiver_id) with
      | some existing =>
        if existing.status = .accepted then .error .alreadyConnected
        else .error .requestExists
      | none =>
        .ok { s with
          requests := s.requests ++
            [{ id := s.next_request_id, sender_id := sender_id,
               receiver_id := receiver_id, status := .pending }],
          next_request_id := s.next_request_id + 1 }

/-- Per-row effect of UPDATE message_requests SET status=? WHERE id=? AND
receiver_id=?. -/
def set_status (request_id user_id : Nat) (st : ReqStatus) (r : MessageRequest) :
    MessageRequest :=
  if r.id == request_id && r.receiver_id == user_id then { r with status := st } else r

/-- Embeds accept_request: the UPDATE filters only on id and receiver_id
(no status condition) and the function returns nothing. -/
def accept_request (s : ChatState) (request_id user_id : Nat) : ChatState :=
  { s with requests := s.requests.map (set_status request_id user_id .accepted) }

/-- Embeds decline_request, symmetric to accept_request. -/
def decline_request (s : ChatState) (request_id user_id : Nat) : ChatState :=
  { s with requests := s.requests.map (set_status request_id user_id .declined) }

/-- Error kind the spec expects accept and decline to surface for a
non-target caller or a non-pending record. -/
inductive RegistryError where
  | notAuthorizedOrNotFound
deriving DecidableEq, Repr

/-- Value returned to the caller by accept_request: the Python function
body contains no return statement, so every call returns None whatever the
arguments and the state; no error value is ever produced. -/
def accept_request_result (s : ChatState) (request_id user_id : Nat) :
    Option RegistryError :=
  none

/-- Value returned to the caller by decline_request: like accept_request
the function body has no return statement, so every call returns None. -/
def decline_request_result (s : ChatState) (request_id user_id : Nat) :
    Option RegistryError :=
  none

/-- Whitespace test matching the default character class of the strip
method used by send_message. -/
def is_space (c : Char) : Bool :=
  c == ' ' || c == '\t' || c == '\n' || c == '\r' || c == '\x0b' || c == '\x0c'

/-- Embeds the strip method on text: drop whitespace from both ends. -/
def strip (t : String) : String :=
  String.mk (((t.data.dropWhile is_space).reverse.dropWhile is_space).reverse)

/-- Embeds send_message: a blank (whitespace-only) text returns without
touching the store; otherwise the row is inserted with the untrimmed text
and the current time.  No connectivity check appears in the source. -/
def send_message (s : ChatState) (sender_id receiver_id : Nat) (text : String)
    (now : Nat) : ChatState :=
  if strip text = "" then s
  else { s with messages := s.messages ++
    [{ sender_id := sender_id, receiver_id := receiver_id,
       message_text := text, timestamp := now }] }

/-- The security check of get_messages: an accepted request row exists for
the pair in either direction.  This is the isConnected gate of the spec. -/
def is_connected (s : ChatState) (user_id partner_id : Nat) : Bool :=
  s.requests.any (fun r => pair_matches user_id partner_id r && r.status == ReqStatus.accepted)

/-- The WHERE clause selecting messages between the pair in either
direction, in insertion (rowid) order. -/
def messages_between (msgs : List Message) (user_id partner_id : Nat) : List Message :=
  msgs.filter (fun m =>
    (m.sender_id == user_id && m.receiver_id == partner_id) ||
    (m.sender_id == partner_id && m.receiver_id == user_id))

/-- Comparator for ORDER BY timestamp ASC. -/
def ts_le (m1 m2 : Message) : Bool :=
  decide (m1.timestamp ≤ m2.timestamp)

/-- Comparator for ORDER BY timestamp DESC. -/
def ts_ge (m1 m2 : Message) : Bool :=
  decide (m2.timestamp ≤ m1.timestamp)

/-- Embeds get_messages: if no accepted request row exists for the pair the
function returns [] without reading the messages table; otherwise it
returns the pair's messages ordered by timestamp ascending. -/
def get_messages (s : ChatState) (user_id partner_id : Nat) : List Message :=
  if is_connected s user_id partner_id then
    (messages_between s.messages user_id partner_id).mergeSort ts_le
  else []

/-- Embeds get_last_message: ORDER BY timestamp DESC LIMIT 1 over the
pair's messages, with no connectivity check. -/
def get_last_message (s : ChatState) (user_id partner_id : Nat) : Option Message :=
  ((messages_between s.messages user_id partner_id).mergeSort ts_ge).head?

/-- Embeds get_unread_count: COUNT(*) of messages sent by the partner to
the user, with no connectivity check and no read-tracking. -/
def get_unread_count (s : ChatState) (user_id partner_id : Nat) : Nat :=
  (s.messages.filter (fun m => m.sender_id == partner_id && m.receiver_id == user_id)).length

/-! Concrete sample stores used to instantiate the theorems below. -/

/-- Sample user with id 1. -/
def alice : User := { id := 1, username := "alice" }

/-- Sample user with id 2. -/
def bob : User := { id := 2, username := "bob" }

/-- Two users and no requests or messages at all. -/
def baseState : ChatState :=
  { users := [alice, bob], requests := [], messages := [], next_request_id := 1 }

/-- Two users with a pending request from alice to bob. -/
def pendingState : ChatState :=
  { users := [alice, bob],
    requests := [{ id := 1, sender_id := 1, receiver_id := 2, status := .pending }],
    messages := [], next_request_id := 2 }

/-- Two users with a declined request from alice to bob. -/
def declinedState : ChatState :=
  { users := [alice, bob],
    requests := [{ id := 1, sender_id := 1, receiver_id := 2, status := .declined }],
    messages := [], next_request_id := 2 }

/-- Two users with an accepted request and one stored message. -/
def acceptedState : ChatState :=
  { users := [alice, bob],
    requests := [{ id := 1, sender_id := 1, receiver_id := 2, status := .accepted }],
    messages := [{ sender_id := 1, receiver_id := 2, message_text := "hi", timestamp := 5 }],
    next_request_id := 2 }

/-! Helper lemmas about the conditional row update of the UPDATE statement
shared by accept_request and decline_request. -/

/-- A row that does not match both the id and the receiver condition of the
UPDATE is left unchanged. -/
theorem set_status_of_no_match (request_id user_id : Nat) (st : ReqStatus)
    (r : MessageRequest) (h : ¬(r.id = request_id ∧ r.receiver_id = user_id)) :
    set_status request_id user_id st r = r := by
  simp only [set_status, Bool.and_eq_true, beq_iff_eq]
  rw [if_neg h]

/-- A row matching both conditions of the UPDATE gets the new status,
whatever its previous status was. -/
theorem set_status_of_match (request_id user_id : Nat) (st : ReqStatus)
    (r : MessageRequest) (h1 : r.id = request_id) (h2 : r.receiver_id = user_id) :
    set_status request_id user_id st r = { r with status := st } := by
  simp only [set_status, Bool.and_eq_true, beq_iff_eq]
  rw [if_pos ⟨h1, h2⟩]

/-- The conditional row update is idempotent on each row. -/
theorem set_status_idem (request_id user_id : Nat) (st : ReqStatus) (r : MessageRequest) :
    set_status request_id user_id st (set_status request_id user_id st r)
      = set_status request_id user_id st r := by
  by_cases h : r.id = request_id ∧ r.receiver_id = user_id
  · rw [set_status_of_match request_id user_id st r h.1 h.2]
    exact set_status_of_match request_id user_id st { r with status := st } h.1 h.2
  · rw [set_status_of_no_match request_id user_id st r h,
      set_status_of_no_match request_id user_id st r h]

/-- C1, counterexample: in a state where alice and bob are not connected
(their only request is declined), send_message nevertheless stores the
message, so append does not fail and is not gated by isConnected. -/
theorem send_message_stores_despite_not_connected :
    is_connected declinedState 1 2 = false ∧
    (send_message declinedState 1 2 ("hi") 5).messages
      = [{ sender_id := 1, receiver_id := 2, message_text := "hi", timestamp := 5 }] := by
  decide

/-- C1, amended: for every sender, receiver and text whose stripped form is
non-empty, send_message always succeeds and appends exactly the new message
row, regardless of is_connected; no connectivity check exists on the write
path, and the request table is untouched. -/
theorem send_message_appends_unconditionally (s : ChatState)
    (sender_id receiver_id : Nat) (text : String) (now : Nat)
    (h : strip text ≠ "") :
    (send_message s sender_id receiver_id text now).messages
      = s.messages ++ [{ sender_id := sender_id, receiver_id := receiver_id,
                         message_text := text, timestamp := now }] ∧
    (send_message s sender_id receiver_id text now).requests = s.requests := by
  constructor
  · simp only [send_message]
    rw [if_neg h]
  · simp only [send_message]
    rw [if_neg h]

/-- C1, witness: the amended statement instantiated at the disconnected
sample state. -/
theorem send_message_appends_unconditionally_witness :
    (send_message declinedState 1 2 ("hi") 5).messages
      = declinedState.messages ++ [{ sender_id := 1, receiver_id := 2,
                                     message_text := "hi", timestamp := 5 }] ∧
    (send_message declinedState 1 2 ("hi") 5).requests = declinedState.requests :=
  send_message_appends_unconditionally declinedState 1 2 ("hi") 5 (by decide)

/-- C2: when the resolved receiver already shares a request row with the
sender, in either direction and in any status, send_request fails with
AlreadyConnected for an accepted row and RequestExists for a pending or
declined row, and never returns a new state, so nothing is inserted. -/
theorem send_request_rejects_existing_pair (s : ChatState) (sender_id receiver_id : Nat)
    (receiver_username : String) (existing : MessageRequest)
    (hres : get_user_id s receiver_username = some receiver_id)
    (h0 : receiver_id ≠ 0) (hself : sender_id ≠ receiver_id)
    (hfind : s.requests.find? (pair_matches sender_id receiver_id) = some existing) :
    (existing.status = ReqStatus.accepted →
      send_request s sender_id receiver_username = .error .alreadyConnected) ∧
    (existing.status ≠ ReqStatus.accepted →
      send_request s sender_id receiver_username = .error .requestExists) ∧
    ∀ s2 : ChatState, send_request s sender_id receiver_username ≠ .ok s2 := by
  have hred : send_request s sender_id receiver_username =
      if existing.status = ReqStatus.accepted then .error .alreadyConnected
      else .error .requestExists := by
    simp only [send_request, hres]
    rw [if_neg h0, if_neg hself, hfind]
  refine ⟨?_, ?_, ?_⟩
  · intro h
    rw [hred, if_pos h]
  · intro h
    rw [hred, if_neg h]
  · intro s2
    rw [hred]
    by_cases h : existing.status = ReqStatus.accepted
    · rw [if_pos h]
      simp
    · rw [if_neg h]
      simp

/-- C2, witness: after a pending proposal from alice to bob, the reverse
proposal from bob to alice fails with RequestExists and inserts nothing. -/
theorem send_request_rejects_existing_pair_witness :
    send_request pendingState 2 ("alice") = .error .requestExists ∧
    ∀ s2 : ChatState, send_request pendingState 2 ("alice") ≠ .ok s2 := by
  have h := send_request_rejects_existing_pair pendingState 2 1 ("alice")
    { id := 1, sender_id := 1, receiver_id := 2, status := .pending }
    (by decide) (by decide) (by decide) (by decide)
  exact ⟨h.2.1 (by decide), h.2.2⟩

/-- C3, counterexample: a declined (terminal) request is not left unchanged
by a later accept call from its target: accept_request flips it to
accepted, because the UPDATE has no status condition. -/
theorem accept_request_overwrites_declined :
    ({ id := 1, sender_id := 1, receiver_id := 2,
       status := ReqStatus.declined } : MessageRequest) ∈ declinedState.requests ∧
    (accept_request declinedState 1 2).requests
      = [{ id := 1, sender_id := 1, receiver_id := 2, status := ReqStatus.accepted }] := by
  decide

/-- C3, amended: a request in any status, terminal ones included, is left
unchanged by accept or decline calls from users other than its target, but
a call by its target overwrites the status to the new value unconditionally,
so Declined to Accepted and Accepted to Declined transitions are possible
and no status change is signalled to the caller. -/
theorem request_status_overwrite_only_by_target (s : ChatState) (request_id user_id : Nat) :
    (∀ r ∈ s.requests, ¬(r.id = request_id ∧ r.receiver_id = user_id) →
      r ∈ (accept_request s request_id user_id).requests ∧
      r ∈ (decline_request s request_id user_id).requests) ∧
    (∀ r ∈ (accept_request s request_id user_id).requests,
      r.id = request_id → r.receiver_id = user_id → r.status = ReqStatus.accepted) ∧
    (∀ r ∈ (decline_request s request_id user_id).requests,
      r.id = request_id → r.receiver_id = user_id → r.status = ReqStatus.declined) := by
  have hmem : ∀ (st : ReqStatus) (r : MessageRequest), r ∈ s.requests →
      ¬(r.id = request_id ∧ r.receiver_id = user_id) →
      r ∈ s.requests.map (set_status request_id user_id st) := by
    intro st r hr hne
    exact List.mem_map.mpr ⟨r, hr, set_status_of_no_match request_id user_id st r hne⟩
  have hstat : ∀ (st : ReqStatus) (r : MessageRequest),
      r ∈ s.requests.map (set_status request_id user_id st) →
      r.id = request_id → r.receiver_id = user_id → r.status = st := by
    intro st r hr h1 h2
    obtain ⟨r0, hr0, hset⟩ := List.mem_map.mp hr
    by_cases h : r0.id = request_id ∧ r0.receiver_id = user_id
    · rw [set_status_of_match request_id user_id st r0 h.1 h.2] at hset
      rw [← hset]
    · rw [set_status_of_no_match request_id user_id st r0 h] at hset
      subst hset
      exact absurd ⟨h1, h2⟩ h
  refine ⟨fun r hr hne => ⟨hmem _ r hr hne, hmem _ r hr hne⟩, hstat _, hstat _⟩

/-- C3, witness: the amended statement instantiated at the declined sample
state with a non-target caller, who changes nothing. -/
theorem request_status_overwrite_only_by_target_witness :
    ({ id := 1, sender_id := 1, receiver_id := 2,
       status := ReqStatus.declined } : MessageRequest)
      ∈ (accept_request declinedState 1 99).requests ∧
    ({ id := 1, sender_id := 1, receiver_id := 2,
       status := ReqStatus.declined } : MessageRequest)
      ∈ (decline_request declinedState 1 99).requests :=
  (request_status_overwrite_only_by_target declinedState 1 99).1
    { id := 1, sender_id := 1, receiver_id := 2, status := ReqStatus.declined }
    (by decide) (by decide)

/-- C4, counterexample: when alice, the proposer and not the target of
request 1, calls accept or decline, every record is indeed left unchanged,
but nothing is signalled: the returned value is None, never
NotAuthorizedOrNotFound, so the conjunction claimed for a non-target caller
is false. -/
theorem accept_decline_signal_nothing :
    accept_request declinedState 1 1 = declinedState ∧
    accept_request_result declinedState 1 1 = none ∧
    decline_request_result declinedState 1 1 = none ∧
    ¬(accept_request declinedState 1 1 = declinedState ∧
      accept_request_result declinedState 1 1 = some RegistryError.notAuthorizedOrNotFound) := by
  decide

/-- C4, amended: accept_request and decline_request mutate nothing unless a
request row with the given id exists whose target is the acting user; for
any other caller, the proposer in particular, the whole state is returned
unchanged — but no error is signalled, since both functions return None on
every path, so NotAuthorizedOrNotFound never reaches the caller. -/
theorem accept_decline_noop_unless_target (s : ChatState) (request_id user_id : Nat)
    (h : ∀ r ∈ s.requests, r.id = request_id → r.receiver_id ≠ user_id) :
    (accept_request s request_id user_id = s ∧ decline_request s request_id user_id = s) ∧
    accept_request_result s request_id user_id = none ∧
    decline_request_result s request_id user_id = none := by
  have hmap : ∀ st : ReqStatus,
      s.requests.map (set_status request_id user_id st) = s.requests := by
    intro st
    conv_rhs => rw [← List.map_id s.requests]
    refine List.map_congr_left ?_
    intro r hr
    refine set_status_of_no_match request_id user_id st r ?_
    rintro ⟨h1, h2⟩
    exact h r hr h1 h2
  refine ⟨⟨?_, ?_⟩, rfl, rfl⟩
  · show { s with requests := s.requests.map (set_status request_id user_id .accepted) } = s
    rw [hmap]
  · show { s with requests := s.requests.map (set_status request_id user_id .declined) } = s
    rw [hmap]

/-- C4, witness: alice, the proposer of the declined request, can neither
accept nor decline it; the state is untouched and None is returned. -/
theorem accept_decline_noop_unless_target_witness :
    (accept_request declinedState 1 1 = declinedState ∧
     decline_request declinedState 1 1 = declinedState) ∧
    accept_request_result declinedState 1 1 = none ∧
    decline_request_result declinedState 1 1 = none :=
  accept_decline_noop_unless_target declinedState 1 1 (by decide)

/-- C5: get_messages returns the empty list, not an error, whenever the
pair is not connected, and otherwise returns exactly the messages between
the pair in either direction, ordered by timestamp ascending. -/
theorem get_messages_gated_sorted (s : ChatState) (user_id partner_id : Nat) :
    (is_connected s user_id partner_id = false → get_messages s user_id partner_id = []) ∧
    (is_connected s user_id partner_id = true →
      (get_messages s user_id partner_id).Perm
        (messages_between s.messages user_id partner_id) ∧
      List.Sorted (fun m1 m2 : Message => m1.timestamp ≤ m2.timestamp)
        (get_messages s user_id partner_id)) := by
  constructor
  · intro h
    simp [get_messages, h]
  · intro h
    have hunf : get_messages s user_id partner_id
        = (messages_between s.messages user_id partner_id).mergeSort ts_le := by
      simp [get_messages, h]
    rw [hunf]
    refine ⟨List.mergeSort_perm _ _, ?_⟩
    have htrans : ∀ a b c : Message, ts_le a b = true → ts_le b c = true → ts_le a c = true := by
      intro a b c hab hbc
      simp only [ts_le, decide_eq_true_eq] at hab hbc ⊢
      omega
    have htot : ∀ a b : Message, (ts_le a b || ts_le b a) = true := by
      intro a b
      simp only [ts_le, Bool.or_eq_true, decide_eq_true_eq]
      omega
    have hs := List.sorted_mergeSort htrans htot (messages_between s.messages user_id partner_id)
    exact hs.imp (fun hab => by simpa [ts_le] using hab)

/-- C5, witness: the connected branch instantiated at the accepted sample
state. -/
theorem get_messages_gated_sorted_witness :
    (get_messages acceptedState 1 2).Perm (messages_between acceptedState.messages 1 2) ∧
    List.Sorted (fun m1 m2 : Message => m1.timestamp ≤ m2.timestamp)
      (get_messages acceptedState 1 2) :=
  (get_messages_gated_sorted acceptedState 1 2).2 (by decide)

/-- C6: is_connected is symmetric in its two user arguments and holds
exactly when an accepted request row exists for the unordered pair, in
either proposal direction. -/
theorem is_connected_symm_iff_accepted_pair (s : ChatState) (a b : Nat) :
    is_connected s a b = is_connected s b a ∧
    (is_connected s a b = true ↔
      ∃ r ∈ s.requests, r.status = ReqStatus.accepted ∧
        ((r.sender_id = a ∧ r.receiver_id = b) ∨ (r.sender_id = b ∧ r.receiver_id = a))) := by
  have hiff : ∀ x y : Nat, (is_connected s x y = true ↔
      ∃ r ∈ s.requests, r.status = ReqStatus.accepted ∧
        ((r.sender_id = x ∧ r.receiver_id = y) ∨ (r.sender_id = y ∧ r.receiver_id = x))) := by
    intro x y
    simp only [is_connected, List.any_eq_true, pair_matches, Bool.and_eq_true,
      Bool.or_eq_true, beq_iff_eq]
    constructor
    · rintro ⟨r, hr, hd, hst⟩
      exact ⟨r, hr, hst, hd⟩
    · rintro ⟨r, hr, hst, hd⟩
      exact ⟨r, hr, hd, hst⟩
  refine ⟨?_, hiff a b⟩
  rw [Bool.eq_iff_iff, hiff a b, hiff b a]
  constructor
  · rintro ⟨r, hr, hst, hd⟩
    exact ⟨r, hr, hst, hd.symm⟩
  · rintro ⟨r, hr, hst, hd⟩
    exact ⟨r, hr, hst, hd.symm⟩

/-- C7: a message whose stripped text is empty is a benign no-op for
send_message, the state is returned unchanged and no error arises, and
consequently every stored message keeps a non-blank text if all existing
ones have one. -/
theorem send_message_blank_noop (s : ChatState) (sender_id receiver_id : Nat)
    (text : String) (now : Nat) :
    (strip text = "" → send_message s sender_id receiver_id text now = s) ∧
    ((∀ m ∈ s.messages, strip m.message_text ≠ "") →
      ∀ m ∈ (send_message s sender_id receiver_id text now).messages,
        strip m.message_text ≠ "") := by
  constructor
  · intro h
    simp [send_message, h]
  · intro hinv m hm
    simp only [send_message] at hm
    by_cases h : strip text = ""
    · rw [if_pos h] at hm
      exact hinv m hm
    · rw [if_neg h] at hm
      simp only [List.mem_append, List.mem_singleton] at hm
      rcases hm with hm | hm
      · exact hinv m hm
      · rw [hm]
        exact h

/-- C7, witness: sending a whitespace-only text in the accepted sample
state leaves the store exactly as it was. -/
theorem send_message_blank_noop_witness :
    send_message acceptedState 1 2 ("   ") 9 = acceptedState :=
  (send_message_blank_noop acceptedState 1 2 ("   ") 9).1 (by decide)

/-- C8: get_last_message ignores the request table entirely, returns none
exactly when no message exists between the pair in either direction, and
any message it returns is one of the pair whose timestamp is maximal. -/
theorem get_last_message_ungated_latest (s : ChatState) (user_id partner_id : Nat) :
    (∀ reqs : List MessageRequest,
      get_last_message { s with requests := reqs } user_id partner_id
        = get_last_message s user_id partner_id) ∧
    (get_last_message s user_id partner_id = none ↔
      messages_between s.messages user_id partner_id = []) ∧
    (∀ m, get_last_message s user_id partner_id = some m →
      m ∈ messages_between s.messages user_id partner_id ∧
      ∀ m2 ∈ messages_between s.messages user_id partner_id,
        m2.timestamp ≤ m.timestamp) := by
  have hperm := List.mergeSort_perm (messages_between s.messages user_id partner_id) ts_ge
  have htrans : ∀ a b c : Message, ts_ge a b = true → ts_ge b c = true → ts_ge a c = true := by
    intro a b c hab hbc
    simp only [ts_ge, decide_eq_true_eq] at hab hbc ⊢
    omega
  have htot : ∀ a b : Message, (ts_ge a b || ts_ge b a) = true := by
    intro a b
    simp only [ts_ge, Bool.or_eq_true, decide_eq_true_eq]
    omega
  have hsorted := List.sorted_mergeSort htrans htot (messages_between s.messages user_id partner_id)
  refine ⟨fun reqs => rfl, ?_, ?_⟩
  · show ((messages_between s.messages user_id partner_id).mergeSort ts_ge).head? = none ↔ _
    rw [List.head?_eq_none_iff]
    constructor
    · intro h
      rw [h] at hperm
      exact (hperm.symm).eq_nil
    · intro h
      rw [h]
      simp
  · intro m hm
    show m ∈ messages_between s.messages user_id partner_id ∧ _
    rcases hL : (messages_between s.messages user_id partner_id).mergeSort ts_ge with _ | ⟨a, t⟩
    · rw [get_last_message, hL] at hm
      simp at hm
    · rw [get_last_message, hL] at hm
      simp only [List.head?_cons, Option.some.injEq] at hm
      rw [hL] at hperm hsorted
      subst hm
      constructor
      · exact hperm.mem_iff.mp (List.mem_cons_self a t)
      · intro m2 hm2
        have hmem : m2 ∈ a :: t := hperm.mem_iff.mpr hm2
        rcases List.mem_cons.mp hmem with h | h
        · rw [h]
        · have := List.rel_of_pairwise_cons hsorted h
          simpa [ts_ge] using this

/-- C8, witness: the maximality part instantiated at the accepted sample
state, whose single stored message get_last_message returns. -/
theorem get_last_message_ungated_latest_witness :
    ({ sender_id := 1, receiver_id := 2, message_text := "hi", timestamp := 5 } : Message)
      ∈ messages_between acceptedState.messages 1 2 ∧
    ∀ m2 ∈ messages_between acceptedState.messages 1 2, m2.timestamp ≤ 5 := by
  have hbetween : messages_between acceptedState.messages 1 2
      = [{ sender_id := 1, receiver_id := 2, message_text := "hi", timestamp := 5 }] := by
    decide
  have hm : get_last_message acceptedState 1 2
      = some { sender_id := 1, receiver_id := 2, message_text := "hi", timestamp := 5 } := by
    show ((messages_between acceptedState.messages 1 2).mergeSort ts_ge).head? = _
    rw [hbetween, List.mergeSort_singleton]
    rfl
  exact (get_last_message_ungated_latest acceptedState 1 2).2.2 _ hm

/-- Helper for C9: a successful send_request only inserts a request row; it
never touches the messages or users tables. -/
theorem send_request_ok_frame (s : ChatState) (sid : Nat) (uname : String) (s2 : ChatState)
    (h : send_request s sid uname = .ok s2) :
    s2.messages = s.messages ∧ s2.users = s.users := by
  unfold send_request at h
  split at h
  · simp at h
  · split at h
    · simp at h
    · split at h
      · simp at h
      · split at h
        · split at h <;> simp at h
        · injection h with h2
          rw [← h2]
          exact ⟨rfl, rfl⟩

/-- C9: get_unread_count is the total number of stored messages sent by
the partner to the user, and no registry or store operation ever decreases
it: accept, decline and a successful propose leave it unchanged, and
send_message can only increase it. -/
theorem get_unread_count_partner_total_monotone (s : ChatState) (user_id partner_id : Nat) :
    get_unread_count s user_id partner_id
      = (s.messages.filter
          (fun m => decide (m.sender_id = partner_id ∧ m.receiver_id = user_id))).length ∧
    (∀ rid uid, get_unread_count (accept_request s rid uid) user_id partner_id
      = get_unread_count s user_id partner_id) ∧
    (∀ rid uid, get_unread_count (decline_request s rid uid) user_id partner_id
      = get_unread_count s user_id partner_id) ∧
    (∀ sid rid text now, get_unread_count s user_id partner_id
      ≤ get_unread_count (send_message s sid rid text now) user_id partner_id) ∧
    (∀ sid uname s2, send_request s sid uname = Except.ok s2 →
      get_unread_count s2 user_id partner_id = get_unread_count s user_id partner_id) := by
  refine ⟨?_, fun rid uid => rfl, fun rid uid => rfl, ?_, ?_⟩
  · unfold get_unread_count
    congr 1
    refine List.filter_congr ?_
    intro m hm
    rw [Bool.eq_iff_iff]
    simp
  · intro sid rid text now
    by_cases h : strip text = ""
    · unfold send_message
      rw [if_pos h]
    · unfold get_unread_count send_message
      rw [if_neg h]
      simp only [List.filter_append, List.length_append]
      omega
  · intro sid uname s2 h
    unfold get_unread_count
    rw [(send_request_ok_frame s sid uname s2 h).1]

/-- C9, witness: the propose branch instantiated concretely, the proposal
from alice to bob taking the empty store to the pending sample state. -/
theorem get_unread_count_partner_total_monotone_witness :
    get_unread_count pendingState 1 2 = get_unread_count baseState 1 2 :=
  (get_unread_count_partner_total_monotone baseState 1 2).2.2.2.2 1 ("bob") pendingState rfl

/-- C10: running accept_request twice with the same arguments produces the
same store as running it once, and likewise for decline_request. -/
theorem accept_decline_idempotent (s : ChatState) (request_id user_id : Nat) :
    accept_request (accept_request s request_id user_id) request_id user_id
      = accept_request s request_id user_id ∧
    decline_request (decline_request s request_id user_id) request_id user_id
      = decline_request s request_id user_id := by
  have hmap : ∀ st : ReqStatus,
      (s.requests.map (set_status request_id user_id st)).map (set_status request_id user_id st)
        = s.requests.map (set_status request_id user_id st) := by
    intro st
    rw [List.map_map]
    refine List.map_congr_left ?_
    intro r hr
    exact set_status_idem request_id user_id st r
  constructor
  · simp only [accept_request]
    rw [hmap]
  · simp only [decline_request]
    rw [hmap]

end Chat
